import Mathlib

/-!
A shallow embedding of the container start path of the moby daemon
(daemon/start.go together with the libcontainerd client file), and
theorems about its behaviour.  Pure Go helpers become Lean functions;
external collaborators (mount manager, network initializer, spec builder,
the containerd RPC, the filesystem) are modelled as oracles supplying
their results, so that the control flow of the embedded code is exactly
the control flow of the source.
-/

namespace Moby

/-! ### Go string helpers (strings.ToLower / strings.Contains) -/

/-- Go strings.ToLower restricted to ASCII, which is all the needles use. -/
def goToLower (s : String) : String := ⟨s.data.map Char.toLower⟩

/-- Go strings.Contains: does pat occur as a contiguous substring of s. -/
def goSubstr (s pat : String) : Bool :=
  (List.range (s.data.length + 1)).any fun i => pat.data.isPrefixOf (s.data.drop i)

/-- The local closure named contains in containerStart:
strings.Contains(strings.ToLower(s1), s2).  Note that only s1 is lowered. -/
def containsLower (s1 s2 : String) : Bool := goSubstr (goToLower s1) s2

/-- Modelled from the spec words, for refinement comparison only: a fully
case-insensitive substring test, lowering both sides.  The code lowers only
the haystack; this definition is what the specification describes. -/
def containsCI (s1 s2 : String) : Bool := goSubstr (goToLower s1) (goToLower s2)

/-! ### Create-error classification (start.go lines 179-206) -/

/-- syscall.EACCES.Error() on linux. -/
def eaccesText : String := "permission denied"

/-- syscall.ENOTDIR.Error() on linux. -/
def enotdirText : String := "not a directory"

/-- The remediation hint appended for ENOTDIR errors. -/
def notDirHint : String :=
  ": Are you trying to mount a directory onto a file (or vice-versa)? Check if the specified host path exists and is the expected type"

/-- First classification guard: the error description mentions the
configured entrypoint path and one of the not-found needles. -/
def entryNotFoundMatch (path errDesc : String) : Bool :=
  containsLower errDesc path &&
    (containsLower errDesc "executable file not found" ||
     containsLower errDesc "no such file or directory" ||
     containsLower errDesc "system cannot find the file specified")

/-- Second classification guard: permission denied. -/
def eaccesMatch (errDesc : String) : Bool := containsLower errDesc eaccesText

/-- Third classification guard: not a directory. -/
def enotdirMatch (errDesc : String) : Bool := containsLower errDesc enotdirText

/-- The three sequential SetExitCode updates of containerStart, applied to
the current exit code. -/
def classifyExitCode (path errDesc : String) (cur : Int) : Int :=
  let c1 := if entryNotFoundMatch path errDesc then 127 else cur
  let c2 := if eaccesMatch errDesc then 126 else c1
  if enotdirMatch errDesc then 127 else c2

/-- The in-place annotation of errDesc in the ENOTDIR branch. -/
def annotateErrDesc (errDesc : String) : String :=
  if enotdirMatch errDesc then errDesc ++ notDirHint else errDesc

/-- Spec-worded variant of the first guard (case-insensitive both ways),
for refinement comparison only. -/
def entryNotFoundMatchCI (path errDesc : String) : Bool :=
  containsCI errDesc path &&
    (containsCI errDesc "executable file not found" ||
     containsCI errDesc "no such file or directory" ||
     containsCI errDesc "system cannot find the file specified")

/-! ### Container data model -/

structure HostConfig where
  autoRemove : Bool
  networkMode : String
  deriving DecidableEq

structure Container where
  id : String
  running : Bool
  paused : Bool
  removalInProgress : Bool
  dead : Bool
  exitCode : Int
  errorMsg : Option String
  path : String
  hostConfig : HostConfig
  networksAttached : Bool
  deriving DecidableEq

/-- runconfig.SetDefaultNetModeIfBlank. -/
def defaultNetMode : String := "default"

def setDefaultNetModeIfBlank (hc : HostConfig) : HostConfig :=
  if hc.networkMode == "" then { hc with networkMode := defaultNetMode } else hc

/-! ### The start sequencer (containerStart) -/

/-- Results of the external collaborators invoked by containerStart, in
call order.  A some value is the error that call returns; none is success.
For the containerd Create call the string is the grpc error description. -/
structure StartEnv where
  mountResult : Option String
  networkResult : Option String
  specResult : Option String
  createOptionsResult : Option String
  createResult : Option String
  deriving DecidableEq

/-- Observable outcome of one containerStart call: the final in-memory
container, the returned error, and which steps ran. -/
structure StartOutcome where
  container : Container
  result : Option String := none
  rollbackRegistered : Bool := false
  mountAttempted : Bool := false
  networkInitAttempted : Bool := false
  specBuildAttempted : Bool := false
  optionsBuildAttempted : Bool := false
  restartManagerWasReset : Bool := false
  createInvoked : Bool := false
  toDiskCalled : Bool := false
  transientReset : Bool := false
  cleanupInvoked : Bool := false
  autoRemoveTriggered : Bool := false
  deriving DecidableEq

def removalMsg : String := "Container is marked for removal and cannot be started."

/-- The deferred rollback handler acting on the container: record the
error, and force exit code 128 if it is still zero. -/
def rollbackContainer (c : Container) (e : String) : Container :=
  let c1 := { c with errorMsg := some e }
  if c1.exitCode == 0 then { c1 with exitCode := 128 } else c1

/-- Outcome of an error return taken after the rollback handler was
registered: the rollback records the error, persists the container, resets
transient state, runs Cleanup, and fires auto-remove when configured. -/
def rollbackOutcome (c : Container) (e : String)
    (mA nA sB oB rr cI : Bool) : StartOutcome :=
  { container := rollbackContainer c e, result := some e,
    rollbackRegistered := true,
    mountAttempted := mA, networkInitAttempted := nA,
    specBuildAttempted := sB, optionsBuildAttempted := oB,
    restartManagerWasReset := rr, createInvoked := cI,
    toDiskCalled := true, transientReset := true, cleanupInvoked := true,
    autoRemoveTriggered := c.hostConfig.autoRemove }

/-- daemon.containerStart (start.go lines 99-211).  The checkpoint
arguments do not influence any observable tracked here (the checkpoint
directory default only feeds the Create RPC, whose result the environment
supplies), but are kept for signature fidelity. -/
def containerStart (env : StartEnv) (checkpoint checkpointDir : String)
    (c : Container) (resetRestartManager : Bool) : StartOutcome :=
  if resetRestartManager && c.running then
    { container := c }
  else if c.removalInProgress || c.dead then
    { container := c, result := some removalMsg }
  else
    match env.mountResult with
    | some e => rollbackOutcome c e true false false false false false
    | none =>
      let c := { c with hostConfig := setDefaultNetModeIfBlank c.hostConfig }
      match env.networkResult with
      | some e => rollbackOutcome c e true true false false false false
      | none =>
        match env.specResult with
        | some e => rollbackOutcome c e true true true false false false
        | none =>
          match env.createOptionsResult with
          | some e => rollbackOutcome c e true true true true false false
          | none =>
            match env.createResult with
            | some errDesc =>
              let c := { c with
                exitCode := classifyExitCode c.path errDesc c.exitCode }
              rollbackOutcome c (annotateErrDesc errDesc)
                true true true true resetRestartManager true
            | none =>
              { container := c, rollbackRegistered := true,
                mountAttempted := true, networkInitAttempted := true,
                specBuildAttempted := true, optionsBuildAttempted := true,
                restartManagerWasReset := resetRestartManager,
                createInvoked := true }

/-! ### The start orchestrator (ContainerStart) -/

inductive DError where
  | badRequest (msg : String)
  | withStatus (msg : String) (status : Nat)
  | plain (msg : String)
  deriving DecidableEq

def statusNotModified : Nat := 304

def checkpointMsg : String := "checkpoint is only supported in experimental mode"

def pausedMsg : String := "Cannot start a paused container, try unpause instead."

def alreadyStartedMsg : String := "Container already started"

def windowsHostConfigMsg : String :=
  "Supplying a hostconfig on start is not supported. It should be supplied on create"

/-- Daemon-level oracles for the collaborators ContainerStart calls, plus
the platform and feature flags it consults. -/
structure Daemon where
  hasExperimental : Bool
  isWindows : Bool
  setSecurityOptionsResult : Option String
  mergeLogConfigResult : Option String
  setHostConfigResult : Option String
  toDiskResult : Option String
  verifyResult : Option String
  adaptResult : Option String
  env : StartEnv
  deriving DecidableEq

/-- Observable outcome of one ContainerStart call. -/
structure CSOutcome where
  result : Option DError
  container : Option Container
  verifyCalled : Bool
  adaptCalled : Bool
  seq : Option StartOutcome
  deriving DecidableEq

def CSOutcome.createInvoked (o : CSOutcome) : Bool :=
  match o.seq with
  | some s => s.createInvoked
  | none => false

def isNotModified : Option DError → Bool
  | some (.withStatus _ s) => s == statusNotModified
  | _ => false

/-- The deprecated legacy host-config merge (start.go lines 45-67):
security options, log config, replacement of the stored host config,
network-settings invalidation plus persist on a network-mode change. -/
def mergeLegacyHostConfig (d : Daemon) (c : Container) (hc : HostConfig) :
    Container × Option String :=
  match d.setSecurityOptionsResult with
  | some e => (c, some e)
  | none =>
    match d.mergeLogConfigResult with
    | some e => (c, some e)
    | none =>
      match d.setHostConfigResult with
      | some e => (c, some e)
      | none =>
        let oldMode := c.hostConfig.networkMode
        let c1 := { c with hostConfig := hc }
        if oldMode != hc.networkMode then
          ({ c1 with networksAttached := false }, d.toDiskResult)
        else
          (c1, none)

/-- daemon.ContainerStart (start.go lines 22-88).  Name resolution is
supplied as an oracle: the result GetContainer would return. -/
def ContainerStart (d : Daemon) (lookup : Except DError Container)
    (hostConfig : Option HostConfig) (checkpoint checkpointDir : String) :
    CSOutcome :=
  if checkpoint != "" && !d.hasExperimental then
    { result := some (.badRequest checkpointMsg), container := none,
      verifyCalled := false, adaptCalled := false, seq := none }
  else
    match lookup with
    | .error e =>
      { result := some e, container := none,
        verifyCalled := false, adaptCalled := false, seq := none }
    | .ok c =>
      if c.paused then
        { result := some (.plain pausedMsg), container := some c,
          verifyCalled := false, adaptCalled := false, seq := none }
      else if c.running then
        { result := some (.withStatus alreadyStartedMsg statusNotModified),
          container := some c,
          verifyCalled := false, adaptCalled := false, seq := none }
      else
        let mergeStep : Container × Option DError :=
          if !d.isWindows then
            match hostConfig with
            | some hc =>
              let r := mergeLegacyHostConfig d c hc
              (r.1, r.2.map DError.plain)
            | none => (c, none)
          else
            match hostConfig with
            | some _ => (c, some (.plain windowsHostConfigMsg))
            | none => (c, none)
        match mergeStep with
        | (c1, some e) =>
          { result := some e, container := some c1,
            verifyCalled := false, adaptCalled := false, seq := none }
        | (c1, none) =>
          match d.verifyResult with
          | some e =>
            { result := some (.plain e), container := some c1,
              verifyCalled := true, adaptCalled := false, seq := none }
          | none =>
            if hostConfig.isSome then
              match d.adaptResult with
              | some e =>
                { result := some (.plain e), container := some c1,
                  verifyCalled := true, adaptCalled := true, seq := none }
              | none =>
                let o := containerStart d.env checkpoint checkpointDir c1 true
                { result := o.result.map .plain, container := some o.container,
                  verifyCalled := true, adaptCalled := true, seq := some o }
            else
              let o := containerStart d.env checkpoint checkpointDir c1 true
              { result := o.result.map .plain, container := some o.container,
                verifyCalled := true, adaptCalled := false, seq := some o }

/-! ### Bundle directory preparation (libcontainerd prepareBundleDir) -/

/-- Result of an os.Stat on one path: found with or without the
world-execute permission bit (mode bit 1, the only bit the code reads),
absent, or a hard stat failure. -/
inductive StatResult where
  | found (worldExec : Bool)
  | absent
  | statFailed (msg : String)
  deriving DecidableEq

/-- Result of idtools.MkdirAs: freshly made, already existing (the
tolerated os.IsExist case), or a hard failure. -/
inductive MkdirResult where
  | made
  | already
  | failed (msg : String)
  deriving DecidableEq

/-- The filesystem as the two oracles prepareBundleDir consults.  Paths are
segment lists of an absolute, clean path, matching the split the code
performs on the result of filepath.Abs. -/
structure BundleFS where
  stat : List String → StatResult
  mkdir : List String → MkdirResult

/-- The uid/gid-suffixed sibling segment name. -/
def suffixSeg (d : String) (uid gid : Nat) : String :=
  d ++ "." ++ toString uid ++ "." ++ toString gid

/-- The per-segment walk of prepareBundleDir, also collecting every path it
passed to MkdirAs. -/
def walkBundle (fs : BundleFS) (uid gid : Nat) :
    List String → List String → List (List String) →
    Except String (List String × List (List String))
  | p, [], created => .ok (p, created)
  | p, d :: ds, created =>
    match fs.stat (p ++ [d]) with
    | .statFailed m => .error m
    | .found we =>
      if we then
        walkBundle fs uid gid (p ++ [d]) ds created
      else
        match fs.mkdir (p ++ [suffixSeg d uid gid]) with
        | .failed m => .error m
        | _ => walkBundle fs uid gid (p ++ [suffixSeg d uid gid]) ds
            (created ++ [p ++ [suffixSeg d uid gid]])
    | .absent =>
      match fs.mkdir (p ++ [suffixSeg d uid gid]) with
      | .failed m => .error m
      | _ => walkBundle fs uid gid (p ++ [suffixSeg d uid gid]) ds
          (created ++ [p ++ [suffixSeg d uid gid]])

/-- libcontainerd client.prepareBundleDir.  Returns the derived bundle
root together with the list of paths it asked MkdirAs to create. -/
def prepareBundleDir (fs : BundleFS) (stateRoot : List String)
    (uid gid : Nat) : Except String (List String × List (List String)) :=
  if uid == 0 && gid == 0 then .ok (stateRoot, [])
  else walkBundle fs uid gid [] stateRoot []

/-- Segment-wise relation between the requested state root and the derived
bundle root: each derived segment is the original one or its suffixed
sibling. -/
def eachSegChoice (uid gid : Nat) : List String → List String → Prop
  | [], [] => True
  | d :: ds, q :: qs =>
    (q = d ∨ q = suffixSeg d uid gid) ∧ eachSegChoice uid gid ds qs
  | _, _ => False

/-! ### Exit notifier (libcontainerd exitNotifier) -/

/-- One exit notifier: its identity (standing in for the Go pointer), its
registry key, whether its sync.Once already fired, and whether its channel
is closed. -/
structure exitNotifier where
  nid : Nat
  key : String
  fired : Bool
  chClosed : Bool
  deriving DecidableEq

/-- The client exitNotifiers map, as an association of keys to notifier
identities. -/
abbrev Registry := List (String × Nat)

def regLookup (r : Registry) (k : String) : Option Nat :=
  match r.find? (fun p => p.1 == k) with
  | some p => some p.2
  | none => none

def regDelete (r : Registry) (k : String) : Registry :=
  r.filter (fun p => p.1 != k)

/-- exitNotifier.close: inside the once guard, close the channel and
delete the registry entry only when the registered instance is this very
notifier. -/
def exitNotifier.close (en : exitNotifier) (reg : Registry) :
    exitNotifier × Registry :=
  if en.fired then (en, reg)
  else
    let en1 := { en with fired := true, chClosed := true }
    let reg1 :=
      if regLookup reg en.key == some en.nid then regDelete reg en.key
      else reg
    (en1, reg1)

/-- exitNotifier.wait observed after the fact: whether the shared channel
every waiter holds is closed. -/
def exitNotifier.waitClosed (en : exitNotifier) : Bool := en.chClosed

/-! ### Concrete instances used by witnesses and counterexamples -/

def hcBase : HostConfig := { autoRemove := false, networkMode := "default" }

def cBase : Container :=
  { id := "c1", running := false, paused := false,
    removalInProgress := false, dead := false, exitCode := 0,
    errorMsg := none, path := "/bin/sh", hostConfig := hcBase,
    networksAttached := true }

def cRun : Container := { cBase with running := true }

def cPaused : Container := { cBase with paused := true }

def cPausedRun : Container := { cBase with paused := true, running := true }

def envOK : StartEnv :=
  { mountResult := none, networkResult := none, specResult := none,
    createOptionsResult := none, createResult := none }

def envMountFail : StartEnv := { envOK with mountResult := some "mount failed" }

def envCreateFail : StartEnv :=
  { envOK with createResult := some "context deadline exceeded" }

def dBase : Daemon :=
  { hasExperimental := false, isWindows := false,
    setSecurityOptionsResult := none, mergeLogConfigResult := none,
    setHostConfigResult := none, toDiskResult := none,
    verifyResult := none, adaptResult := none, env := envOK }

/-- Counterexample inputs for the classification claim: an entrypoint path
with uppercase characters, echoed verbatim in the error description. -/
def demoPath : String := "/BIN/sh"

def demoDesc : String := "exec: /BIN/sh: executable file not found"

/-- Filesystem for the bundle scenario: /var, /var/run and
/var/run/docker exist world-executable, the state root itself exists
root-owned without the world-execute bit, everything else is absent. -/
def demoFS : BundleFS where
  stat := fun p =>
    if p = ["var"] then .found true
    else if p = ["var", "run"] then .found true
    else if p = ["var", "run", "docker"] then .found true
    else if p = ["var", "run", "docker", "libcontainerd"] then .found false
    else .absent
  mkdir := fun _ => .made

def demoRoot : List String := ["var", "run", "docker", "libcontainerd"]

def demoSibling : List String := ["var", "run", "docker", "libcontainerd.1000.1000"]

/-- The legacy host-config merge succeeded (vacuously when no legacy
override was supplied). -/
def mergeOk (d : Daemon) (c : Container) (hc : Option HostConfig) : Prop :=
  match hc with
  | none => True
  | some h => (mergeLegacyHostConfig d c h).2 = none

/-- A notifier whose registry entry has been superseded by a newer
instance (identity 2) under the same key. -/
def enDemo : exitNotifier :=
  { nid := 1, key := "a", fired := false, chClosed := false }

def regDemo : Registry := [("a", 2)]

/-! ### Theorems -/

/-- Claim C2, counterexample: the specification announces a case-insensitive
substring match, but the code lowers only the error description, so an
entrypoint path containing uppercase characters never matches.  Here the
description contains the entrypoint path and the not-found needle under
case-insensitive matching, yet the code leaves the exit code untouched at
zero instead of setting 127. -/
theorem C2_counterexample :
    entryNotFoundMatchCI demoPath demoDesc = true ∧
    eaccesMatch demoDesc = false ∧
    enotdirMatch demoDesc = false ∧
    classifyExitCode demoPath demoDesc 0 = 0 := by decide

/-- Claim C2 as amended: the classifier lowers the error description only
and tests the needles verbatim, so the fixed lowercase needles behave
case-insensitively while the entrypoint path must already appear in the
lowered description.  With that matching: entrypoint-plus-not-found sets
127 (when no later clause also matches), permission-denied sets 126 (when
not-a-directory does not also match), and not-a-directory appends the
remediation hint and sets 127. -/
theorem C2_classification (path dsc : String) (cur : Int) :
    (entryNotFoundMatch path dsc = true → eaccesMatch dsc = false →
      enotdirMatch dsc = false → classifyExitCode path dsc cur = 127) ∧
    (eaccesMatch dsc = true → enotdirMatch dsc = false →
      classifyExitCode path dsc cur = 126) ∧
    (enotdirMatch dsc = true →
      classifyExitCode path dsc cur = 127 ∧
      annotateErrDesc dsc = dsc ++ notDirHint) := by
  unfold classifyExitCode annotateErrDesc
  refine ⟨?_, ?_, ?_⟩
  · intro h1 h2 h3; simp [h1, h2, h3]
  · intro h1 h2; simp [h1, h2]
  · intro h1; simp [h1]

/-- Claim C2 amended, witness at a lowercase entrypoint path. -/
theorem C2_classification_witness :
    classifyExitCode "/bin/sh" "exec: /bin/sh: no such file or directory" 0 = 127 :=
  (C2_classification "/bin/sh" "exec: /bin/sh: no such file or directory" 0).1
    (by decide) (by decide) (by decide)

/-- Claim C3: the three SetExitCode checks run in order and each later
match overrides an earlier one, so the final exit code is the unique
classification of the last matching check; whenever at least one check
matches, the resulting code is exactly one of 126 and 127. -/
theorem C3_exactly_one (path dsc : String) (cur : Int) :
    (classifyExitCode path dsc cur =
      if enotdirMatch dsc then 127
      else if eaccesMatch dsc then 126
      else if entryNotFoundMatch path dsc then 127
      else cur) ∧
    ((entryNotFoundMatch path dsc || eaccesMatch dsc || enotdirMatch dsc) = true →
      classifyExitCode path dsc cur = 126 ∨
      classifyExitCode path dsc cur = 127) := by
  unfold classifyExitCode
  constructor
  · split_ifs <;> simp_all
  · intro h
    split_ifs <;> simp_all

/-- Claim C3, witness on a message matching only the permission clause. -/
theorem C3_exactly_one_witness :
    classifyExitCode "/bin/sh" "open /etc/shadow: permission denied" 0 = 126 ∨
    classifyExitCode "/bin/sh" "open /etc/shadow: permission denied" 0 = 127 :=
  (C3_exactly_one "/bin/sh" "open /etc/shadow: permission denied" 0).2 (by decide)

/-- Claim C9: closing an exit notifier twice equals closing it once (the
signal fires exactly once); close deletes the registry key only when the
registered identity is this very notifier, so a newer instance under the
same key survives; and after a close every waiter sees the channel
closed, with an identity-matching unfired close performing exactly the
key deletion. -/
theorem C9_notifier (en : exitNotifier) (reg : Registry) :
    (exitNotifier.close (exitNotifier.close en reg).1
        (exitNotifier.close en reg).2 = exitNotifier.close en reg) ∧
    (∀ m, regLookup reg en.key = some m → m ≠ en.nid →
      (exitNotifier.close en reg).2 = reg) ∧
    (en.fired = false →
      exitNotifier.waitClosed (exitNotifier.close en reg).1 = true) ∧
    (en.fired = false → regLookup reg en.key = some en.nid →
      (exitNotifier.close en reg).2 = regDelete reg en.key) := by
  by_cases hf : en.fired = true
  · simp [exitNotifier.close, hf, exitNotifier.waitClosed]
  · simp only [Bool.not_eq_true] at hf
    refine ⟨?_, ?_, ?_, ?_⟩
    · simp [exitNotifier.close, hf]
    · intro m hm hne
      simp [exitNotifier.close, hf, hm, hne]
    · intro _
      simp [exitNotifier.close, hf, exitNotifier.waitClosed]
    · intro _ hm
      simp [exitNotifier.close, hf, hm]

/-- Claim C9, witness: a superseded notifier (identity 1, registry holding
identity 2 under the same key) closes without removing the newer entry,
and its waiters see the closure. -/
theorem C9_notifier_witness :
    (exitNotifier.close enDemo regDemo).2 = regDemo ∧
    exitNotifier.waitClosed (exitNotifier.close enDemo regDemo).1 = true :=
  ⟨(C9_notifier enDemo regDemo).2.1 2 rfl (by decide),
   (C9_notifier enDemo regDemo).2.2.1 rfl⟩

/-- The trivial segment choice: keeping every original segment. -/
lemma eachSegChoice_refl (uid gid : Nat) : ∀ ds, eachSegChoice uid gid ds ds
  | [] => trivial
  | _ :: ds => ⟨Or.inl rfl, eachSegChoice_refl uid gid ds⟩

/-- Any successful walk extends the accumulated path by one segment choice
per requested segment. -/
lemma walkBundle_choice (fs : BundleFS) (uid gid : Nat) :
    ∀ (ds p cr q cr'), walkBundle fs uid gid p ds cr = .ok (q, cr') →
      ∃ qs, q = p ++ qs ∧ eachSegChoice uid gid ds qs := by
  intro ds
  induction ds with
  | nil =>
    intro p cr q cr' h
    simp only [walkBundle, Except.ok.injEq, Prod.mk.injEq] at h
    exact ⟨[], by simp [← h.1], trivial⟩
  | cons d ds ih =>
    intro p cr q cr' h
    simp only [walkBundle] at h
    cases hs : fs.stat (p ++ [d]) with
    | statFailed m => rw [hs] at h; simp at h
    | found we =>
      rw [hs] at h
      cases we with
      | true =>
        simp only [if_pos rfl] at h
        obtain ⟨qs, hq, hc⟩ := ih _ _ _ _ h
        exact ⟨d :: qs, by simp [hq], ⟨Or.inl rfl, hc⟩⟩
      | false =>
        simp only [Bool.false_eq_true, if_neg] at h
        cases hm : fs.mkdir (p ++ [suffixSeg d uid gid]) with
        | failed m => rw [hm] at h; simp at h
        | made =>
          rw [hm] at h
          obtain ⟨qs, hq, hc⟩ := ih _ _ _ _ h
          exact ⟨suffixSeg d uid gid :: qs, by simp [hq], ⟨Or.inr rfl, hc⟩⟩
        | already =>
          rw [hm] at h
          obtain ⟨qs, hq, hc⟩ := ih _ _ _ _ h
          exact ⟨suffixSeg d uid gid :: qs, by simp [hq], ⟨Or.inr rfl, hc⟩⟩
    | absent =>
      rw [hs] at h
      cases hm : fs.mkdir (p ++ [suffixSeg d uid gid]) with
      | failed m => rw [hm] at h; simp at h
      | made =>
        rw [hm] at h
        obtain ⟨qs, hq, hc⟩ := ih _ _ _ _ h
        exact ⟨suffixSeg d uid gid :: qs, by simp [hq], ⟨Or.inr rfl, hc⟩⟩
      | already =>
        rw [hm] at h
        obtain ⟨qs, hq, hc⟩ := ih _ _ _ _ h
        exact ⟨suffixSeg d uid gid :: qs, by simp [hq], ⟨Or.inr rfl, hc⟩⟩

/-- Claim C5: with uid and gid both zero, prepareBundleDir returns the
state root unmodified and creates nothing; in general every successful
derivation replaces each walked segment either by itself or by its
uid.gid-suffixed sibling; and against a root-owned state directory
(world-execute bit clear on the final segment only) uid 1000 gid 1000
yields the root.1000.1000 sibling, the only directory created, leaving
the original root untouched. -/
theorem C5_bundle_dir :
    (∀ (fs : BundleFS) (root : List String),
      prepareBundleDir fs root 0 0 = .ok (root, [])) ∧
    (∀ (fs : BundleFS) (root : List String) (uid gid : Nat) q cr,
      prepareBundleDir fs root uid gid = .ok (q, cr) →
      eachSegChoice uid gid root q) ∧
    (prepareBundleDir demoFS demoRoot 1000 1000 =
      .ok (demoSibling, [demoSibling])) ∧
    demoSibling ≠ demoRoot := by
  refine ⟨fun fs root => rfl, ?_, by rfl, by decide⟩
  intro fs root uid gid q cr h
  unfold prepareBundleDir at h
  split at h
  · simp only [Except.ok.injEq, Prod.mk.injEq] at h
    rw [← h.1]
    exact eachSegChoice_refl uid gid root
  · obtain ⟨qs, hq, hc⟩ := walkBundle_choice fs uid gid root [] [] q cr h
    simpa [hq] using hc

/-- Claim C5, witness: the zero case at the demo root, and the segment
choice exhibited by the non-root scenario. -/
theorem C5_bundle_dir_witness :
    prepareBundleDir demoFS demoRoot 0 0 = .ok (demoRoot, []) ∧
    eachSegChoice 1000 1000 demoRoot demoSibling :=
  ⟨C5_bundle_dir.1 demoFS demoRoot,
   C5_bundle_dir.2.1 demoFS demoRoot 1000 1000 demoSibling [demoSibling] (by rfl)⟩

/-- Claim C4: a plain start (no checkpoint requested, so the checkpoint
validation that precedes all state checks passes trivially) of a Running,
not Paused container returns the distinguished NotModified result - an
error value carrying HTTP status 304 rather than a hard failure - with the
container state unchanged, the sequencer never entered, and Create never
invoked. -/
theorem C4_not_modified (d : Daemon) (c : Container) (hc : Option HostConfig)
    (cpd : String) (hr : c.running = true) (hp : c.paused = false) :
    (ContainerStart d (.ok c) hc "" cpd).result =
      some (.withStatus alreadyStartedMsg statusNotModified) ∧
    isNotModified (ContainerStart d (.ok c) hc "" cpd).result = true ∧
    (ContainerStart d (.ok c) hc "" cpd).container = some c ∧
    (ContainerStart d (.ok c) hc "" cpd).seq = none ∧
    (ContainerStart d (.ok c) hc "" cpd).createInvoked = false := by
  simp [ContainerStart, hr, hp, isNotModified, CSOutcome.createInvoked]

/-- Claim C4, witness at a concrete running container. -/
theorem C4_not_modified_witness :
    (ContainerStart dBase (.ok cRun) none "" "").result =
      some (.withStatus alreadyStartedMsg statusNotModified) ∧
    isNotModified (ContainerStart dBase (.ok cRun) none "" "").result = true ∧
    (ContainerStart dBase (.ok cRun) none "" "").container = some cRun ∧
    (ContainerStart dBase (.ok cRun) none "" "").seq = none ∧
    (ContainerStart dBase (.ok cRun) none "" "").createInvoked = false :=
  C4_not_modified dBase cRun none "" rfl rfl

/-- Claim C6: the sequencer invoked with resetRestartManager true on an
already Running container returns success at once: no error, container
untouched, and neither the mount, network, spec-build nor Create step is
performed. -/
theorem C6_running_skip (env : StartEnv) (cp cpd : String) (c : Container)
    (hr : c.running = true) :
    (containerStart env cp cpd c true).result = none ∧
    (containerStart env cp cpd c true).container = c ∧
    (containerStart env cp cpd c true).createInvoked = false ∧
    (containerStart env cp cpd c true).mountAttempted = false ∧
    (containerStart env cp cpd c true).networkInitAttempted = false ∧
    (containerStart env cp cpd c true).specBuildAttempted = false := by
  simp [containerStart, hr]

/-- Claim C6, witness at a concrete running container. -/
theorem C6_running_skip_witness :
    (containerStart envOK "" "" cRun true).result = none ∧
    (containerStart envOK "" "" cRun true).container = cRun ∧
    (containerStart envOK "" "" cRun true).createInvoked = false ∧
    (containerStart envOK "" "" cRun true).mountAttempted = false ∧
    (containerStart envOK "" "" cRun true).networkInitAttempted = false ∧
    (containerStart envOK "" "" cRun true).specBuildAttempted = false :=
  C6_running_skip envOK "" "" cRun rfl

/-- Claim C7: a start of a Paused container always fails and never reaches
the sequencer or Create; whenever the checkpoint precondition admits the
request (no checkpoint, or experimental mode - the one validation the
code places before the state checks), the failure is exactly the paused
StateConflict error telling the caller to unpause instead. -/
theorem C7_paused_conflict (d : Daemon) (c : Container) (hc : Option HostConfig)
    (cp cpd : String) (hp : c.paused = true) :
    ((ContainerStart d (.ok c) hc cp cpd).result ≠ none ∧
     (ContainerStart d (.ok c) hc cp cpd).seq = none ∧
     (ContainerStart d (.ok c) hc cp cpd).createInvoked = false) ∧
    ((cp = "" ∨ d.hasExperimental = true) →
      (ContainerStart d (.ok c) hc cp cpd).result = some (.plain pausedMsg)) := by
  by_cases hcp : (cp != "" && !d.hasExperimental) = true
  · constructor
    · simp [ContainerStart, hcp, CSOutcome.createInvoked]
    · intro h
      simp only [bne_iff_ne, ne_eq, Bool.and_eq_true, Bool.not_eq_true',
        decide_eq_true_eq] at hcp
      rcases h with h | h
      · exact absurd h hcp.1
      · rw [h] at hcp; exact absurd hcp.2 (by decide)
  · simp only [Bool.not_eq_true] at hcp
    constructor
    · simp [ContainerStart, hcp, hp, CSOutcome.createInvoked]
    · intro _
      simp [ContainerStart, hcp, hp]

/-- Claim C7, witness at a concrete paused container. -/
theorem C7_paused_conflict_witness :
    (((ContainerStart dBase (.ok cPaused) none "" "").result ≠ none ∧
      (ContainerStart dBase (.ok cPaused) none "" "").seq = none ∧
      (ContainerStart dBase (.ok cPaused) none "" "").createInvoked = false) ∧
     ((("" : String) = "" ∨ dBase.hasExperimental = true) →
       (ContainerStart dBase (.ok cPaused) none "" "").result =
         some (.plain pausedMsg))) :=
  C7_paused_conflict dBase cPaused none "" "" rfl

/-- Claim C10: the Paused check strictly precedes the Running check, so a
container that is simultaneously Paused and Running never yields the
NotModified result, and (whenever the checkpoint precondition admits the
request) yields exactly the paused StateConflict error. -/
theorem C10_paused_precedence (d : Daemon) (c : Container)
    (hc : Option HostConfig) (cp cpd : String)
    (hp : c.paused = true) (hr : c.running = true) :
    isNotModified (ContainerStart d (.ok c) hc cp cpd).result = false ∧
    ((cp = "" ∨ d.hasExperimental = true) →
      (ContainerStart d (.ok c) hc cp cpd).result = some (.plain pausedMsg)) := by
  by_cases hcp : (cp != "" && !d.hasExperimental) = true
  · constructor
    · simp [ContainerStart, hcp, isNotModified]
    · intro h
      simp only [bne_iff_ne, ne_eq, Bool.and_eq_true, Bool.not_eq_true',
        decide_eq_true_eq] at hcp
      rcases h with h | h
      · exact absurd h hcp.1
      · rw [h] at hcp; exact absurd hcp.2 (by decide)
  · simp only [Bool.not_eq_true] at hcp
    constructor
    · simp [ContainerStart, hcp, hp, isNotModified]
    · intro _
      simp [ContainerStart, hcp, hp]

/-- Claim C10, witness at a concrete container both paused and running. -/
theorem C10_paused_precedence_witness :
    isNotModified (ContainerStart dBase (.ok cPausedRun) none "" "").result = false ∧
    ((("" : String) = "" ∨ dBase.hasExperimental = true) →
      (ContainerStart dBase (.ok cPausedRun) none "" "").result =
        some (.plain pausedMsg)) :=
  C10_paused_precedence dBase cPausedRun none "" "" rfl rfl

/-- Claim C8, counterexample: a successful start with no legacy
host-config override re-validates the settings but never calls
adaptContainerSettings, because the code guards the adaptation with the
presence of the legacy override.  This contradicts the claim that
deprecated fields are forward-adapted regardless of whether a legacy
override was supplied. -/
theorem C8_counterexample :
    (ContainerStart dBase (.ok cBase) none "" "").verifyCalled = true ∧
    (ContainerStart dBase (.ok cBase) none "" "").adaptCalled = false ∧
    (ContainerStart dBase (.ok cBase) none "" "").result = none := by
  refine ⟨rfl, rfl, rfl⟩

/-- Claim C8 as amended: on every call that passes the checkpoint gate and
the state checks and whose legacy merge (if any) succeeds, ContainerStart
re-validates the effective host configuration; it forward-adapts
deprecated fields exactly when a legacy override was supplied and the
validation succeeded. -/
theorem C8_verify_adapt (d : Daemon) (c : Container) (hc : Option HostConfig)
    (cp cpd : String)
    (hcp : cp = "" ∨ d.hasExperimental = true)
    (hp : c.paused = false) (hr : c.running = false)
    (hw : d.isWindows = false) (hm : mergeOk d c hc) :
    (ContainerStart d (.ok c) hc cp cpd).verifyCalled = true ∧
    (ContainerStart d (.ok c) hc cp cpd).adaptCalled =
      (hc.isSome && d.verifyResult.isNone) := by
  have hgate : (cp != "" && !d.hasExperimental) = false := by
    rcases hcp with h | h
    · simp [h]
    · simp [h]
  cases hc with
  | none =>
    cases hv : d.verifyResult with
    | none => simp [ContainerStart, hgate, hp, hr, hw, hv]
    | some e => simp [ContainerStart, hgate, hp, hr, hw, hv]
  | some h =>
    have hm2 : (mergeLegacyHostConfig d c h).2 = none := hm
    cases hv : d.verifyResult with
    | none =>
      cases ha : d.adaptResult with
      | none => simp [ContainerStart, hgate, hp, hr, hw, hm2, hv, ha]
      | some e => simp [ContainerStart, hgate, hp, hr, hw, hm2, hv, ha]
    | some e => simp [ContainerStart, hgate, hp, hr, hw, hm2, hv]

/-- Claim C8 amended, witness: with a legacy override supplied the
adaptation runs; compare with the counterexample where it does not. -/
theorem C8_verify_adapt_witness :
    (ContainerStart dBase (.ok cBase) (some hcBase) "" "").verifyCalled = true ∧
    (ContainerStart dBase (.ok cBase) (some hcBase) "" "").adaptCalled =
      ((some hcBase).isSome && dBase.verifyResult.isNone) :=
  C8_verify_adapt dBase cBase (some hcBase) "" "" (Or.inl rfl) rfl rfl rfl
    (by exact rfl)

/-- The rollback always records the error. -/
lemma rollbackContainer_errorMsg (c : Container) (e : String) :
    (rollbackContainer c e).errorMsg = some e := by
  simp only [rollbackContainer]
  split <;> rfl

/-- The rollback forces exit code 128 exactly when the code was zero. -/
lemma rollbackContainer_exitCode (c : Container) (e : String) :
    (rollbackContainer c e).exitCode =
      if c.exitCode = 0 then 128 else c.exitCode := by
  simp only [rollbackContainer]
  by_cases h : c.exitCode = 0
  · simp [h]
  · simp [h]

/-- After the rollback the exit code is never zero. -/
lemma rollbackContainer_ne (c : Container) (e : String) :
    ¬ (rollbackContainer c e).exitCode = 0 := by
  rw [rollbackContainer_exitCode]
  by_cases h : c.exitCode = 0
  · simp [h]
  · simp [h]

/-- Bundle of facts about every error outcome taken through the rollback
handler, for any step flags. -/
lemma rollback_general (c : Container) (e : String) (fa fb fc fd fe ff : Bool) :
    (rollbackOutcome c e fa fb fc fd fe ff).result = some e ∧
    (rollbackOutcome c e fa fb fc fd fe ff).container.errorMsg = some e ∧
    ¬ (rollbackOutcome c e fa fb fc fd fe ff).container.exitCode = 0 ∧
    (rollbackOutcome c e fa fb fc fd fe ff).toDiskCalled = true ∧
    (rollbackOutcome c e fa fb fc fd fe ff).transientReset = true ∧
    (rollbackOutcome c e fa fb fc fd fe ff).cleanupInvoked = true ∧
    (c.exitCode = 0 →
      (rollbackOutcome c e fa fb fc fd fe ff).container.exitCode = 128) := by
  refine ⟨rfl, rollbackContainer_errorMsg c e, rollbackContainer_ne c e,
    rfl, rfl, rfl, ?_⟩
  intro h0
  show (rollbackContainer c e).exitCode = 128
  rw [rollbackContainer_exitCode]
  simp [h0]

/-- Claim C1: once the rollback handler is registered (the two pre-checks
passed), every error returned by a step - mount, networking, spec build,
create options, or Create - is recorded on the container, the container is
persisted, transient state is reset, Cleanup runs, the exit code is
non-zero in every case, and the very error the step produced (for Create,
its possibly annotated description) is returned unchanged.  For each step
the resulting exit code is exactly the rollback rule applied to the code
held at that point: 128 when it was still zero, otherwise unchanged - for
a Create failure the code in force is the classified one, so an
unclassified Create error on a zero-exit-code container also yields 128. -/
theorem C1_rollback (env : StartEnv) (cp cpd : String) (c : Container)
    (rrm : Bool) (h1 : (rrm && c.running) = false)
    (h2 : (c.removalInProgress || c.dead) = false) :
    (∀ e, (containerStart env cp cpd c rrm).result = some e →
      (containerStart env cp cpd c rrm).container.errorMsg = some e ∧
      ¬ (containerStart env cp cpd c rrm).container.exitCode = 0 ∧
      (containerStart env cp cpd c rrm).toDiskCalled = true ∧
      (containerStart env cp cpd c rrm).transientReset = true ∧
      (containerStart env cp cpd c rrm).cleanupInvoked = true) ∧
    (∀ m, env.mountResult = some m →
      (containerStart env cp cpd c rrm).result = some m ∧
      (containerStart env cp cpd c rrm).container.exitCode =
        (if c.exitCode = 0 then 128 else c.exitCode)) ∧
    (env.mountResult = none → ∀ m, env.networkResult = some m →
      (containerStart env cp cpd c rrm).result = some m ∧
      (containerStart env cp cpd c rrm).container.exitCode =
        (if c.exitCode = 0 then 128 else c.exitCode)) ∧
    (env.mountResult = none → env.networkResult = none →
      ∀ m, env.specResult = some m →
      (containerStart env cp cpd c rrm).result = some m ∧
      (containerStart env cp cpd c rrm).container.exitCode =
        (if c.exitCode = 0 then 128 else c.exitCode)) ∧
    (env.mountResult = none → env.networkResult = none →
      env.specResult = none → ∀ m, env.createOptionsResult = some m →
      (containerStart env cp cpd c rrm).result = some m ∧
      (containerStart env cp cpd c rrm).container.exitCode =
        (if c.exitCode = 0 then 128 else c.exitCode)) ∧
    (env.mountResult = none → env.networkResult = none →
      env.specResult = none → env.createOptionsResult = none →
      ∀ m, env.createResult = some m →
      (containerStart env cp cpd c rrm).result = some (annotateErrDesc m) ∧
      (containerStart env cp cpd c rrm).container.exitCode =
        (if classifyExitCode c.path m c.exitCode = 0 then 128
         else classifyExitCode c.path m c.exitCode)) := by
  cases hm : env.mountResult with
  | some m =>
    have hcs : containerStart env cp cpd c rrm =
        rollbackOutcome c m true false false false false false := by
      simp [containerStart, h1, h2, hm]
    have hg := rollback_general c m true false false false false false
    rw [hcs]
    refine ⟨?_, ?_, ?_, ?_, ?_, ?_⟩
    · intro e he
      rw [hg.1] at he
      injection he with h
      subst h
      exact ⟨hg.2.1, hg.2.2.1, hg.2.2.2.1, hg.2.2.2.2.1, hg.2.2.2.2.2.1⟩
    · intro m' hm'
      injection hm' with h
      subst h
      exact ⟨hg.1, rollbackContainer_exitCode c m⟩
    · intro hmn; exact Option.noConfusion hmn
    · intro hmn; exact Option.noConfusion hmn
    · intro hmn; exact Option.noConfusion hmn
    · intro hmn; exact Option.noConfusion hmn
  | none =>
    cases hn : env.networkResult with
    | some m =>
      have hcs : containerStart env cp cpd c rrm =
          rollbackOutcome
            { c with hostConfig := setDefaultNetModeIfBlank c.hostConfig }
            m true true false false false false := by
        simp [containerStart, h1, h2, hm, hn]
      have hg := rollback_general
        { c with hostConfig := setDefaultNetModeIfBlank c.hostConfig }
        m true true false false false false
      rw [hcs]
      refine ⟨?_, ?_, ?_, ?_, ?_, ?_⟩
      · intro e he
        rw [hg.1] at he
        injection he with h
        subst h
        exact ⟨hg.2.1, hg.2.2.1, hg.2.2.2.1, hg.2.2.2.2.1, hg.2.2.2.2.2.1⟩
      · intro m' hm'; exact Option.noConfusion hm'
      · intro _ m' hn'
        injection hn' with h
        subst h
        exact ⟨hg.1, rollbackContainer_exitCode
          { c with hostConfig := setDefaultNetModeIfBlank c.hostConfig } m⟩
      · intro _ hnn; exact Option.noConfusion hnn
      · intro _ hnn; exact Option.noConfusion hnn
      · intro _ hnn; exact Option.noConfusion hnn
    | none =>
      cases hs : env.specResult with
      | some m =>
        have hcs : containerStart env cp cpd c rrm =
            rollbackOutcome
              { c with hostConfig := setDefaultNetModeIfBlank c.hostConfig }
              m true true true false false false := by
          simp [containerStart, h1, h2, hm, hn, hs]
        have hg := rollback_general
          { c with hostConfig := setDefaultNetModeIfBlank c.hostConfig }
          m true true true false false false
        rw [hcs]
        refine ⟨?_, ?_, ?_, ?_, ?_, ?_⟩
        · intro e he
          rw [hg.1] at he
          injection he with h
          subst h
          exact ⟨hg.2.1, hg.2.2.1, hg.2.2.2.1, hg.2.2.2.2.1, hg.2.2.2.2.2.1⟩
        · intro m' hm'; exact Option.noConfusion hm'
        · intro _ m' hn'; exact Option.noConfusion hn'
        · intro _ _ m' hs'
          injection hs' with h
          subst h
          exact ⟨hg.1, rollbackContainer_exitCode
            { c with hostConfig := setDefaultNetModeIfBlank c.hostConfig } m⟩
        · intro _ _ hsn; exact Option.noConfusion hsn
        · intro _ _ hsn; exact Option.noConfusion hsn
      | none =>
        cases ho : env.createOptionsResult with
        | some m =>
          have hcs : containerStart env cp cpd c rrm =
              rollbackOutcome
                { c with hostConfig := setDefaultNetModeIfBlank c.hostConfig }
                m true true true true false false := by
            simp [containerStart, h1, h2, hm, hn, hs, ho]
          have hg := rollback_general
            { c with hostConfig := setDefaultNetModeIfBlank c.hostConfig }
            m true true true true false false
          rw [hcs]
          refine ⟨?_, ?_, ?_, ?_, ?_, ?_⟩
          · intro e he
            rw [hg.1] at he
            injection he with h
            subst h
            exact ⟨hg.2.1, hg.2.2.1, hg.2.2.2.1, hg.2.2.2.2.1, hg.2.2.2.2.2.1⟩
          · intro m' hm'; exact Option.noConfusion hm'
          · intro _ m' hn'; exact Option.noConfusion hn'
          · intro _ _ m' hs'; exact Option.noConfusion hs'
          · intro _ _ _ m' ho'
            injection ho' with h
            subst h
            exact ⟨hg.1, rollbackContainer_exitCode
              { c with hostConfig := setDefaultNetModeIfBlank c.hostConfig } m⟩
          · intro _ _ _ hon; exact Option.noConfusion hon
        | none =>
          cases hcr : env.createResult with
          | some m =>
            have hcs : containerStart env cp cpd c rrm =
                rollbackOutcome
                  { c with
                    hostConfig := setDefaultNetModeIfBlank c.hostConfig,
                    exitCode := classifyExitCode c.path m c.exitCode }
                  (annotateErrDesc m) true true true true rrm true := by
              simp [containerStart, h1, h2, hm, hn, hs, ho, hcr]
            have hg := rollback_general
              { c with
                hostConfig := setDefaultNetModeIfBlank c.hostConfig,
                exitCode := classifyExitCode c.path m c.exitCode }
              (annotateErrDesc m) true true true true rrm true
            rw [hcs]
            refine ⟨?_, ?_, ?_, ?_, ?_, ?_⟩
            · intro e he
              rw [hg.1] at he
              injection he with h
              subst h
              exact ⟨hg.2.1, hg.2.2.1, hg.2.2.2.1, hg.2.2.2.2.1, hg.2.2.2.2.2.1⟩
            · intro m' hm'; exact Option.noConfusion hm'
            · intro _ m' hn'; exact Option.noConfusion hn'
            · intro _ _ m' hs'; exact Option.noConfusion hs'
            · intro _ _ _ m' ho'; exact Option.noConfusion ho'
            · intro _ _ _ _ m' hcr'
              injection hcr' with h
              subst h
              exact ⟨hg.1, rollbackContainer_exitCode
                { c with
                  hostConfig := setDefaultNetModeIfBlank c.hostConfig,
                  exitCode := classifyExitCode c.path m c.exitCode }
                (annotateErrDesc m)⟩
          | none =>
            have hcs : (containerStart env cp cpd c rrm).result = none := by
              simp [containerStart, h1, h2, hm, hn, hs, ho, hcr]
            refine ⟨?_, ?_, ?_, ?_, ?_, ?_⟩
            · intro e he; rw [hcs] at he; exact Option.noConfusion he
            · intro m' hm'; exact Option.noConfusion hm'
            · intro _ m' hn'; exact Option.noConfusion hn'
            · intro _ _ m' hs'; exact Option.noConfusion hs'
            · intro _ _ _ m' ho'; exact Option.noConfusion ho'
            · intro _ _ _ _ m' hcr'; exact Option.noConfusion hcr'

/-- Claim C1, witness: a mount failure on a fresh container is returned
unchanged, recorded, forces exit code 128 and runs the cleanup; and an
unclassified Create failure on a zero-exit-code container also forces
exit code 128 while returning the description unchanged. -/
theorem C1_rollback_witness :
    ((containerStart envMountFail "" "" cBase true).result = some "mount failed" ∧
     (containerStart envMountFail "" "" cBase true).container.errorMsg =
       some "mount failed" ∧
     (containerStart envMountFail "" "" cBase true).container.exitCode = 128 ∧
     (containerStart envMountFail "" "" cBase true).cleanupInvoked = true) ∧
    ((containerStart envCreateFail "" "" cBase true).result =
       some "context deadline exceeded" ∧
     (containerStart envCreateFail "" "" cBase true).container.exitCode = 128) := by
  have h := C1_rollback envMountFail "" "" cBase true (by decide) (by decide)
  have hmt := h.2.1 "mount failed" rfl
  have hk := C1_rollback envCreateFail "" "" cBase true (by decide) (by decide)
  have hcr := hk.2.2.2.2.2 rfl rfl rfl rfl "context deadline exceeded" rfl
  refine ⟨⟨hmt.1, (h.1 "mount failed" hmt.1).1, ?_,
    (h.1 "mount failed" hmt.1).2.2.2.2⟩, ?_, ?_⟩
  · rw [hmt.2]; decide
  · rw [hcr.1]; decide
  · rw [hcr.2]; decide

end Moby
